import Mathlib

/-!
Shallow embedding of the moderation case lifecycle and expiry scheduler of
`src/cogs/mod.py` (classes `CaseType`, `Case`, `Warn`, `Kick`, `Mute`, `Ban`,
and the `Moderation.case_removal` task loop).

Timestamps (`datetime.datetime`) are modelled as `Int`; platform identifiers
(guilds, users, messages) as `Nat`. The `cases` table is a `List Row`, one
entry per stored row, in insertion order (appends at the tail model `INSERT`,
`List.filter` models `DELETE`, `List.map` models `UPDATE`, `List.find?` models
fetching the first matching row). Side effects performed against the chat
platform (DM notifications, timeouts, kicks, bans, unbans) are reified as an
`Effect` trace.
-/

namespace ClosedBeta

/-- `CaseType` (src/cogs/mod.py:14): WARN = 1, MUTE = 2, KICK = 3, BAN = 4. -/
inductive CaseType
  | warn
  | mute
  | kick
  | ban
  deriving DecidableEq, Repr

/-- The integer value of a `CaseType` member (`self.type.value`). -/
def CaseType.value : CaseType → Nat
  | .warn => 1
  | .mute => 2
  | .kick => 3
  | .ban => 4

/-- `CaseType(v)`: `none` models the `ValueError` raised on a value outside 1..4. -/
def CaseType.ofValue? (v : Nat) : Option CaseType :=
  if v = 1 then some CaseType.warn
  else if v = 2 then some CaseType.mute
  else if v = 3 then some CaseType.kick
  else if v = 4 then some CaseType.ban
  else none

/-- One row of the `cases` table, with the columns named in `Case.create`'s
INSERT (src/cogs/mod.py:287): type, guild_id, case_id, user_id, moderator_id,
reason, expires, message. The serial `id` primary-key column that
`Case.from_dict` pops is omitted: no claim depends on it. -/
structure Row where
  type : Nat
  guild_id : Nat
  case_id : Nat
  user_id : Nat
  moderator_id : Nat
  reason : Option String
  expires : Option Int
  message : Option String
  deriving DecidableEq, Repr

/-- An in-memory `Case` object (src/cogs/mod.py:20): the attributes set by
`Case.__init__` that the claims use. `length` (a formatted string derived from
`expires`) is omitted. -/
structure Case where
  type : CaseType
  id : Nat
  guild : Nat
  user : Nat
  moderator : Nat
  reason : Option String
  expires : Option Int
  message : Option String
  created : Int
  deriving DecidableEq, Repr

/-- `Case.__init__` (src/cogs/mod.py:21): `self._created = created or
datetime.datetime.now()`. `now` is the clock value at the moment `__init__`
runs; a datetime is always truthy, so `created or now` is `created` when the
argument was supplied (`some`) and `now` when it was `None`. -/
def Case.init (now : Int) (_type : CaseType) (_id guild user moderator : Nat)
    (created : Option Int) (reason : Option String) (expires : Option Int)
    (message : Option String) : Case :=
  { type := _type, id := _id, guild := guild, user := user,
    moderator := moderator, reason := reason, expires := expires,
    message := message, created := created.getD now }

/-- `Warn.__init__` (src/cogs/mod.py:344). Its parameter default
`created: datetime.datetime = datetime.datetime.now()` is evaluated once, when
the class body executes at module import; `classDefTime` is that value. A call
that omits `created` (`created? = none`) therefore passes `classDefTime` on to
`Case.__init__`, not the construction-time clock `now`. -/
def Warn.init (classDefTime now : Int) (_id guild user moderator : Nat)
    (reason : Option String) (expires : Option Int) (message : Option String)
    (created? : Option Int) : Case :=
  Case.init now CaseType.warn _id guild user moderator
    (some (created?.getD classDefTime)) reason expires message

/-- `Kick.__init__` (src/cogs/mod.py:376): same import-time `created` default
as `Warn.__init__`; `expires` defaults to `None` at every call site of
interest, kept explicit here. -/
def Kick.init (classDefTime now : Int) (_id guild user moderator : Nat)
    (reason : Option String) (message : Option String) (expires : Option Int)
    (created? : Option Int) : Case :=
  Case.init now CaseType.kick _id guild user moderator
    (some (created?.getD classDefTime)) reason expires message

/-- `Mute.__init__` (src/cogs/mod.py:399): `expires` is a required positional
parameter (hinted non-optional, though rows read back may carry `None`); same
import-time `created` default. -/
def Mute.init (classDefTime now : Int) (_id guild user moderator : Nat)
    (expires : Option Int) (reason : Option String) (message : Option String)
    (created? : Option Int) : Case :=
  Case.init now CaseType.mute _id guild user moderator
    (some (created?.getD classDefTime)) reason expires message

/-- `Ban.__init__` (src/cogs/mod.py:444): same import-time `created` default. -/
def Ban.init (classDefTime now : Int) (_id guild user moderator : Nat)
    (reason : Option String) (expires : Option Int) (message : Option String)
    (created? : Option Int) : Case :=
  Case.init now CaseType.ban _id guild user moderator
    (some (created?.getD classDefTime)) reason expires message

/-- `Case.__bool__` (src/cogs/mod.py:61): `True` when `expires is None`, else
`self.expires > datetime.datetime.now()`. -/
def Case.bool_ (now : Int) (c : Case) : Bool :=
  match c.expires with
  | none => true
  | some t => decide (now < t)

/-- The row written by `Case.create`'s INSERT (src/cogs/mod.py:286). -/
def Case.toRow (c : Case) : Row :=
  { type := c.type.value, guild_id := c.guild, case_id := c.id,
    user_id := c.user, moderator_id := c.moderator, reason := c.reason,
    expires := c.expires, message := c.message }

/-- `Case.from_dict` (src/cogs/mod.py:72), restricted to the fields the claims
use: the reconstructed case takes its ids, target, reason, expiry and message
from the row; the row carries no `created` value, so `Case.__init__` receives
`created=None` and stamps the read-time clock. `none` models the `ValueError`
that `CaseType(...)` raises on an invalid stored discriminant. -/
def Case.from_dict (now : Int) (r : Row) : Option Case :=
  match CaseType.ofValue? r.type with
  | none => none
  | some t =>
      some (Case.init now t r.case_id r.guild_id r.user_id r.moderator_id
        none r.reason r.expires r.message)

/-- The fetch in `Case.from_id` (src/cogs/mod.py:176):
`SELECT * FROM cases WHERE case_id = $1 AND guild_id = $2`, first row. -/
def fetchByCaseAndGuild (store : List Row) (guild case_id : Nat) : Option Row :=
  store.find? (fun r => r.case_id == case_id && r.guild_id == guild)

/-- `Case.from_id` (src/cogs/mod.py:152): `None` when no row matches, else
`from_dict` on the first fetched row. -/
def Case.from_id (now : Int) (store : List Row) (guild case_id : Nat) :
    Option Case :=
  match fetchByCaseAndGuild store guild case_id with
  | none => none
  | some r => Case.from_dict now r

/-- A platform-level side effect performed by a lifecycle hook. -/
inductive Effect
  | notify (user : Nat) (key : String)
  | timeout (user : Nat) (until_ : Int)
  | removeTimeout (user : Nat)
  | kick (user : Nat)
  | ban (user : Nat)
  | unban (user : Nat)
  deriving DecidableEq, Repr

/-- Ambient facts that the guard and the hook bodies branch on, fixed for the
duration of one `create`/`delete` call. -/
structure Env where
  /-- `self._user in self._guild.members` — the guard in `Case.create`
  (src/cogs/mod.py:282) and `Case.delete` (src/cogs/mod.py:254). -/
  inMembers : Bool
  /-- `isinstance(self._user, discord.Member)` — checked by
  `Mute.before_creation` (src:410) and `Kick.after_creation` (src:395). -/
  isMemberInstance : Bool
  /-- the localization lookup returned a dict — the `isinstance(message, dict)`
  guard before each `user.send`. -/
  msgIsDict : Bool
  /-- the target's DMs are closed: `self._user.send(...)` raises
  `discord.Forbidden`. -/
  dmForbidden : Bool
  /-- `self._guild.get_member(self._user.id)` finds the target —
  `Mute.before_deletion` (src:426) and `Ban.after_deletion` (src:475). -/
  getMemberFound : Bool
  /-- the member found by `get_member` has `timed_out_until` set
  (`Mute.before_deletion`, src:427). -/
  timedOut : Bool
  /-- `self._guild.unban(...)` raises `discord.NotFound`
  (`Ban.before_deletion`, src:470, swallowed). -/
  unbanNotFound : Bool
  deriving DecidableEq, Repr

/-- The notification pattern shared by the hooks (e.g. src/cogs/mod.py:358):
`try: if isinstance(message, dict): await self._user.send(**message) except
discord.Forbidden: pass`. The attempt delivers a notification unless the
message is not a dict or the target forbids DMs; it never raises. -/
def trySend (env : Env) (user : Nat) (key : String) : List Effect :=
  if env.msgIsDict then
    if env.dmForbidden then [] else [Effect.notify user key]
  else []

/-- `before_creation`, dispatched on the case's kind: default no-op
(src/cogs/mod.py:261); `Kick.before_creation` notifies (src:382);
`Mute.before_creation` applies the timeout when the target is a `Member` and
`expires` is non-null (src:406); `Ban.before_creation` notifies (src:451). -/
def before_creation (env : Env) (c : Case) : List Effect :=
  match c.type with
  | .warn => []
  | .kick => trySend env c.user "mod.kick.notify"
  | .mute =>
      match c.expires with
      | some t => if env.isMemberInstance then [Effect.timeout c.user t] else []
      | none => []
  | .ban => trySend env c.user "mod.ban.notify"

/-- `after_creation`, dispatched on the case's kind: `Warn.after_creation`
notifies (src/cogs/mod.py:353); `Kick.after_creation` kicks when the target is
a `Member` (src:393); `Mute.after_creation` notifies (src:413);
`Ban.after_creation` bans (src:462). -/
def after_creation (env : Env) (c : Case) : List Effect :=
  match c.type with
  | .warn => trySend env c.user "mod.warn.notify"
  | .kick => if env.isMemberInstance then [Effect.kick c.user] else []
  | .mute => trySend env c.user "mod.mute.notify"
  | .ban => [Effect.ban c.user]

/-- `before_deletion`, dispatched on the case's kind: default no-op
(src/cogs/mod.py:234); `Mute.before_deletion` removes the timeout when the
target is still resolvable and timed out (src:424); `Ban.before_deletion`
unbans, swallowing `NotFound` (src:466). -/
def before_deletion (env : Env) (c : Case) : List Effect :=
  match c.type with
  | .warn => []
  | .kick => []
  | .mute =>
      if env.getMemberFound && env.timedOut then [Effect.removeTimeout c.user]
      else []
  | .ban => if env.unbanNotFound then [] else [Effect.unban c.user]

/-- `after_deletion`, dispatched on the case's kind: `Warn.after_deletion`
notifies (src/cogs/mod.py:364); default no-op for Kick (src:240);
`Mute.after_deletion` notifies (src:432); `Ban.after_deletion` notifies only
when the target is still a guild member (src:473). -/
def after_deletion (env : Env) (c : Case) : List Effect :=
  match c.type with
  | .warn => trySend env c.user "mod.warn.unwarned"
  | .kick => []
  | .mute => trySend env c.user "mod.unmute.notify"
  | .ban =>
      if env.getMemberFound then trySend env c.user "mod.unban.notify" else []

/-- Modelled from the spec: the `cases` table schema lives in
`first_time.sql`, which is not among the sources; per spec section 4.2,
`insert` "fails (constraint violation) if `(guildId, id)` already exists", so
the INSERT raises a unique violation exactly when the store already holds a
row with the same `guild_id` and `case_id`. -/
def insertViolates (store : List Row) (guild case_id : Nat) : Bool :=
  store.any (fun r => r.guild_id == guild && r.case_id == case_id)

/-- The value `Case.create` returns, or the exception it lets escape. -/
inductive CreateOutcome
  | noneReturned
  | uniqueViolation
  | created
  deriving DecidableEq, Repr

/-- Result of one `Case.create` call: the store afterwards, the platform
side effects performed, and the outcome. -/
structure CreateResult where
  store : List Row
  effects : List Effect
  outcome : CreateOutcome
  deriving DecidableEq, Repr

/-- `Case.create` (src/cogs/mod.py:269): if the target is not in
`guild.members`, return `None` with nothing done; otherwise run
`before_creation`, INSERT the row, run `after_creation`, return the case. A
unique violation raised by the INSERT propagates: no row is added and
`after_creation` does not run, but `before_creation` has already run. -/
def Case.create (env : Env) (c : Case) (store : List Row) : CreateResult :=
  if !env.inMembers then
    { store := store, effects := [], outcome := CreateOutcome.noneReturned }
  else
    let eb := before_creation env c
    if insertViolates store c.guild c.id then
      { store := store, effects := eb,
        outcome := CreateOutcome.uniqueViolation }
    else
      { store := store ++ [c.toRow], effects := eb ++ after_creation env c,
        outcome := CreateOutcome.created }

/-- Result of one `Case.delete` call: the store afterwards and the platform
side effects performed. -/
structure DeleteResult where
  store : List Row
  effects : List Effect
  deriving DecidableEq, Repr

/-- `Case.delete` (src/cogs/mod.py:246): if the target is not in
`guild.members`, return with nothing done; otherwise run `before_deletion`,
execute `DELETE FROM cases WHERE case_id = $1` — filtered by `case_id` only,
with no guild condition — then run `after_deletion`. -/
def Case.delete (env : Env) (c : Case) (store : List Row) : DeleteResult :=
  if !env.inMembers then { store := store, effects := [] }
  else
    { store := store.filter (fun r => !(r.case_id == c.id)),
      effects := before_deletion env c ++ after_deletion env c }

/-- The per-row function of `Case.edit`'s UPDATE (src/cogs/mod.py:309):
`UPDATE cases SET user_id = $1, reason = $2, expires = $3, message = $4 WHERE
case_id = $5` — a row is rewritten from the new case exactly when its
`case_id` matches; the guild is not part of the condition. -/
def editFun (selfId : Nat) (newCase : Case) (r : Row) : Row :=
  if r.case_id == selfId then
    { r with user_id := newCase.user, reason := newCase.reason,
             expires := newCase.expires, message := newCase.message }
  else r

/-- `Case.edit` (src/cogs/mod.py:299): applies the UPDATE to every stored row;
there is no membership guard and no hook. -/
def Case.edit (selfId : Nat) (newCase : Case) (store : List Row) : List Row :=
  store.map (editFun selfId newCase)

/-- `Case.copy` (src/cogs/mod.py:314): `deepcopy(self)`; on this value model,
the identity. -/
def Case.copy (c : Case) : Case := c

/-- The due-case query of `Moderation.case_removal` (src/cogs/mod.py:494):
`SELECT * FROM cases WHERE expires IS NOT NULL AND expires <= $1` — over all
guilds, no guild condition. -/
def findExpired (now : Int) (store : List Row) : List Row :=
  store.filter (fun r =>
    match r.expires with
    | none => false
    | some t => decide (t ≤ now))

/-- One iteration of `case_removal`'s for-loop (src/cogs/mod.py:499):
reconstruct the kind-specific case from the row (the `match case.type` rebinds
`case` to a `Warn`/`Mute`/`Kick`/`Ban`, which on this value model is the same
record) and call `delete` on it. `memberOf g u` models `user in guild.members`
for the row's guild and target; `envOf` supplies the remaining ambient facts
for the deletion hooks. An invalid stored discriminant would raise in
`from_dict`; the exception-free model leaves the store unchanged there. -/
def deleteRow (memberOf : Nat → Nat → Bool) (envOf : Row → Env) (now : Int)
    (r : Row) (store : List Row) : List Row :=
  match Case.from_dict now r with
  | none => store
  | some c =>
      (Case.delete { envOf r with inMembers := memberOf r.guild_id r.user_id }
        c store).store

/-- State after one scheduler tick: the store, and whether the `tasks.loop` is
still running. -/
structure TickResult where
  store : List Row
  running : Bool
  deriving Repr

/-- One tick of `Moderation.case_removal` (src/cogs/mod.py:492), on the
exception-free path: fetch the due rows; `if not case_rows: return` — the
early return leaves the loop running; otherwise delete each reconstructed case
in order and then call `self.case_removal.stop()`, so the loop is no longer
running after the tick. -/
def case_removal_tick (memberOf : Nat → Nat → Bool) (envOf : Row → Env)
    (now : Int) (store : List Row) : TickResult :=
  let due := findExpired now store
  if due.isEmpty then { store := store, running := true }
  else
    { store := due.foldl (fun s r => deleteRow memberOf envOf now r s) store,
      running := false }

/-- `case_removal`'s for-loop when `case.delete` can raise (the loop body has
no exception handler, src/cogs/mod.py:499): walks the fetched rows in order;
each row is passed to `delete`; the first row whose delete raises aborts the
loop. Returns the rows passed to `delete`, in order, and whether the tick was
aborted by an exception. `deleteRaises r` models "`case.delete` raises on the
case reconstructed from `r`". -/
def tickDeleteAttempts (deleteRaises : Row → Bool) : List Row → List Row × Bool
  | [] => ([], false)
  | r :: rest =>
      if deleteRaises r then ([r], true)
      else
        let p := tickDeleteAttempts deleteRaises rest
        (r :: p.1, p.2)

/-- The delete attempts of one `case_removal` tick over the rows returned by
the due-case query. -/
def case_removal_attempts (deleteRaises : Row → Bool) (now : Int)
    (store : List Row) : List Row × Bool :=
  tickDeleteAttempts deleteRaises (findExpired now store)

/-- A fixed ambient environment for concrete scenarios: target in the guild, a
`Member` instance, localization returns a dict, DMs open, target resolvable
and timed out, unban succeeds. -/
def envDefault : Env :=
  { inMembers := true, isMemberInstance := true, msgIsDict := true,
    dmForbidden := false, getMemberFound := true, timedOut := true,
    unbanNotFound := false }

/-- A due mute row: guild 1, case id 5, target 50, expired at t = 3. -/
def rowMuteDue : Row :=
  { type := 2, guild_id := 1, case_id := 5, user_id := 50, moderator_id := 9,
    reason := none, expires := some 3, message := none }

/-- A permanent warn row in another guild sharing case id 5. -/
def rowWarnPerm : Row :=
  { type := 1, guild_id := 2, case_id := 5, user_id := 60, moderator_id := 9,
    reason := none, expires := none, message := none }

/-- A permanent warn row in guild 2 with its own case id 7. -/
def rowWarnPerm7 : Row :=
  { type := 1, guild_id := 2, case_id := 7, user_id := 60, moderator_id := 9,
    reason := none, expires := none, message := none }

/-- A due mute row with case id 1 (used as the failing delete). -/
def rowDueA : Row :=
  { type := 2, guild_id := 1, case_id := 1, user_id := 50, moderator_id := 9,
    reason := none, expires := some 2, message := none }

/-- A due mute row with case id 2, after `rowDueA` in the store. -/
def rowDueB : Row :=
  { type := 2, guild_id := 1, case_id := 2, user_id := 51, moderator_id := 9,
    reason := none, expires := some 2, message := none }

/-- A stored warn row: guild 1, case id 5, target 50, reason "r1",
expires at 99. -/
def rowWarnStored : Row :=
  { type := 1, guild_id := 1, case_id := 5, user_id := 50, moderator_id := 9,
    reason := some "r1", expires := some 99, message := none }

/-- The case `Case.from_dict 0 rowWarnStored` reconstructs. -/
def caseWarnStored : Case :=
  { type := CaseType.warn, id := 5, guild := 1, user := 50, moderator := 9,
    reason := some "r1", expires := some 99, message := none, created := 0 }

/-- A kick case used in create scenarios: guild 1, case id 11, target 50. -/
def caseKick : Case :=
  { type := CaseType.kick, id := 11, guild := 1, user := 50, moderator := 9,
    reason := none, expires := none, message := none, created := 0 }

/-- A mute case used in create scenarios: guild 1, case id 12, target 50,
expires at 20. -/
def caseMute : Case :=
  { type := CaseType.mute, id := 12, guild := 1, user := 50, moderator := 9,
    reason := none, expires := some 20, message := none, created := 0 }

/-- C5: a `Warn`/`Kick`/`Mute`/`Ban` constructed at time 5 without an explicit
`created` argument gets `created` equal to the class-definition (module
import) time 0, not the construction time 5 — the subclass parameter default
`created=datetime.datetime.now()` is evaluated once at import, so the claim
"createdAt equals the time of construction" fails for every subclass; only a
bare `Case` constructed without `created` (which defaults to `None`) stamps
the construction-time clock. -/
theorem subclass_created_defaults_to_import_time :
    (Warn.init 0 5 100 1 50 2 none none none none).created = 0
    ∧ (Kick.init 0 5 100 1 50 2 none none none none).created = 0
    ∧ (Mute.init 0 5 100 1 50 2 (some 7) none none none).created = 0
    ∧ (Ban.init 0 5 100 1 50 2 none none none none).created = 0
    ∧ (Case.init 5 CaseType.warn 100 1 50 2 none none none none).created = 5
    ∧ (0 : Int) ≠ 5 :=
  ⟨rfl, rfl, rfl, rfl, rfl, by decide⟩

/-- C6: `bool(case)` is true exactly when the case is still active — true
when `expires` is `None`, otherwise true iff `expires` is strictly later than
now; in particular true at `now + 60` and false at `now - 60`. -/
theorem bool_iff_active (now : Int) (c : Case) :
    (Case.bool_ now c = true ↔
      c.expires = none ∨ ∃ t, c.expires = some t ∧ now < t)
    ∧ Case.bool_ now { c with expires := none } = true
    ∧ Case.bool_ now { c with expires := some (now + 60) } = true
    ∧ Case.bool_ now { c with expires := some (now - 60) } = false := by
  refine ⟨?_, rfl, ?_, ?_⟩
  · cases h : c.expires with
    | none => simp [Case.bool_, h]
    | some t => simp [Case.bool_, h]
  · simp [Case.bool_]
  · simp [Case.bool_]

/-- C3: for every case kind, when the target is not in `guild.members`,
`create` returns `None` and `delete` returns immediately: the store is
unchanged, no hook runs (no effects), and no error is raised. -/
theorem nonmember_create_delete_noop (env : Env) (c : Case) (store : List Row)
    (h : env.inMembers = false) :
    Case.create env c store
      = { store := store, effects := [],
          outcome := CreateOutcome.noneReturned }
    ∧ Case.delete env c store = { store := store, effects := [] } := by
  constructor
  · simp [Case.create, h]
  · simp [Case.delete, h]

/-- Witness for C3: a kick case on a non-member target against an empty
store. -/
theorem nonmember_create_delete_noop_w :
    ({ envDefault with inMembers := false } : Env).inMembers = false
    ∧ (Case.create { envDefault with inMembers := false } caseKick []
        = { store := [], effects := [],
            outcome := CreateOutcome.noneReturned }
      ∧ Case.delete { envDefault with inMembers := false } caseKick []
        = { store := [], effects := [] }) :=
  ⟨rfl, nonmember_create_delete_noop
    { envDefault with inMembers := false } caseKick [] rfl⟩

/-- C4: when the target is a member and the store already holds a row with
the same `(guild_id, case_id)`, `create` stops at the INSERT: the unique
violation propagates, `after_creation` never runs, exactly the
`before_creation` side effects have occurred, and no row is persisted. -/
theorem duplicate_insert_aborts_create (env : Env) (c : Case)
    (store : List Row) (hm : env.inMembers = true)
    (hdup : insertViolates store c.guild c.id = true) :
    Case.create env c store
      = { store := store, effects := before_creation env c,
          outcome := CreateOutcome.uniqueViolation } := by
  simp [Case.create, hm, hdup]

/-- Witness for C4: a timed mute whose row is already stored; the timeout
(its `before_creation` effect) is applied yet nothing new is persisted. -/
theorem duplicate_insert_aborts_create_w :
    envDefault.inMembers = true
    ∧ insertViolates [caseMute.toRow] caseMute.guild caseMute.id = true
    ∧ Case.create envDefault caseMute [caseMute.toRow]
      = { store := [caseMute.toRow],
          effects := before_creation envDefault caseMute,
          outcome := CreateOutcome.uniqueViolation } :=
  ⟨rfl, by decide,
    duplicate_insert_aborts_create envDefault caseMute [caseMute.toRow] rfl
      (by decide)⟩

/-- C1 counterexample: a tick whose due-case query returns zero rows ends
with the scheduler still running — `if not case_rows: return` exits before
`self.case_removal.stop()` is reached — refuting "after any single tick
completes, the scheduler is no longer running". -/
theorem empty_tick_keeps_running :
    (case_removal_tick (fun _ _ => true) (fun _ => envDefault) 0 []).running
      = true := rfl

/-- C1 amended: the scheduler stops itself at the end of a tick exactly when
the tick's due-case query returned at least one row; a zero-result tick
returns early and leaves the loop running, relying on the next create/edit
only in the nonempty case. -/
theorem tick_stops_iff_found_due (memberOf : Nat → Nat → Bool)
    (envOf : Row → Env) (now : Int) (store : List Row) :
    (case_removal_tick memberOf envOf now store).running
      = (findExpired now store).isEmpty := by
  simp only [case_removal_tick]
  cases h : (findExpired now store).isEmpty <;> simp [h]

/-- C2 counterexample: with two due rows, a raised exception while deleting
the first aborts the for-loop — the second due row of the same tick is never
passed to `delete` — refuting "every case after a failing one is still passed
to delete()". -/
theorem failing_delete_skips_rest :
    rowDueB ∈ findExpired 10 [rowDueA, rowDueB]
    ∧ (fun r => r.case_id == 1) rowDueA = true
    ∧ rowDueB ∉ (case_removal_attempts (fun r => r.case_id == 1) 10
        [rowDueA, rowDueB]).1 :=
  ⟨by decide, by decide, by decide⟩

/-- C2 amended: when the due-case query returns `pre ++ r :: post` where no
delete in `pre` raises and `r`'s delete raises, the tick passes exactly
`pre ++ [r]` to `delete` and aborts — the due cases after the failing one are
not processed in that tick (the loop body has no per-item exception
handler). -/
theorem tick_attempts_stop_at_first_failure (deleteRaises : Row → Bool)
    (now : Int) (store pre : List Row) (r : Row) (post : List Row)
    (hq : findExpired now store = pre ++ r :: post)
    (hpre : ∀ x ∈ pre, deleteRaises x = false)
    (hr : deleteRaises r = true) :
    case_removal_attempts deleteRaises now store = (pre ++ [r], true) := by
  unfold case_removal_attempts
  rw [hq]
  clear hq
  induction pre with
  | nil => simp [tickDeleteAttempts, hr]
  | cons a pre ih =>
      have ha : deleteRaises a = false := hpre a (by simp)
      have ih' := ih (fun x hx => hpre x (by simp [hx]))
      simp [tickDeleteAttempts, ha, ih']

/-- Witness for the amended C2: the failing delete of due row `rowDueA`
leaves the later due row `rowDueB` unattempted. -/
theorem tick_attempts_stop_at_first_failure_w :
    findExpired 10 [rowDueA, rowDueB] = [] ++ rowDueA :: [rowDueB]
    ∧ (∀ x ∈ ([] : List Row), (fun r => r.case_id == 1) x = false)
    ∧ (fun r => r.case_id == 1) rowDueA = true
    ∧ case_removal_attempts (fun r => r.case_id == 1) 10 [rowDueA, rowDueB]
      = ([] ++ [rowDueA], true) :=
  ⟨by decide, by simp, by decide,
    tick_attempts_stop_at_first_failure (fun r => r.case_id == 1) 10
      [rowDueA, rowDueB] [] rowDueA [rowDueB] (by decide) (by simp)
      (by decide)⟩

/-- C9: with the target's DMs closed (`discord.Forbidden` raised by `send`
inside the hook and swallowed there), a member target and a fresh id,
`create` still persists the row, still performs the platform-level action
(kick for Kick, ban for Ban, timeout for a timed Mute), and still returns the
case. -/
theorem forbidden_dm_never_blocks_create (env : Env) (c : Case)
    (store : List Row) (hm : env.inMembers = true)
    (hinst : env.isMemberInstance = true)
    (hdup : insertViolates store c.guild c.id = false) :
    (Case.create { env with dmForbidden := true } c store).store
        = store ++ [c.toRow]
    ∧ (Case.create { env with dmForbidden := true } c store).outcome
        = CreateOutcome.created
    ∧ (c.type = CaseType.kick → Effect.kick c.user
        ∈ (Case.create { env with dmForbidden := true } c store).effects)
    ∧ (c.type = CaseType.ban → Effect.ban c.user
        ∈ (Case.create { env with dmForbidden := true } c store).effects)
    ∧ (∀ t, c.type = CaseType.mute → c.expires = some t →
        Effect.timeout c.user t
          ∈ (Case.create { env with dmForbidden := true } c store).effects) := by
  have hcr : Case.create { env with dmForbidden := true } c store
      = { store := store ++ [c.toRow],
          effects := before_creation { env with dmForbidden := true } c
            ++ after_creation { env with dmForbidden := true } c,
          outcome := CreateOutcome.created } := by
    simp [Case.create, hm, hdup]
  refine ⟨by rw [hcr], by rw [hcr], ?_, ?_, ?_⟩
  · intro hk
    rw [hcr]
    simp [after_creation, hk, hinst]
  · intro hb
    rw [hcr]
    simp [after_creation, hb]
  · intro t hmu he
    rw [hcr]
    simp [before_creation, hmu, he, hinst]

/-- Witness for C9: a kick case, DMs closed, empty store — the row is
persisted, the kick still happens, and the case is returned. -/
theorem forbidden_dm_never_blocks_create_w :
    envDefault.inMembers = true
    ∧ envDefault.isMemberInstance = true
    ∧ insertViolates [] caseKick.guild caseKick.id = false
    ∧ ((Case.create { envDefault with dmForbidden := true } caseKick []).store
        = [] ++ [caseKick.toRow]
      ∧ (Case.create { envDefault with dmForbidden := true }
          caseKick []).outcome = CreateOutcome.created
      ∧ (caseKick.type = CaseType.kick → Effect.kick caseKick.user
          ∈ (Case.create { envDefault with dmForbidden := true }
              caseKick []).effects)
      ∧ (caseKick.type = CaseType.ban → Effect.ban caseKick.user
          ∈ (Case.create { envDefault with dmForbidden := true }
              caseKick []).effects)
      ∧ (∀ t, caseKick.type = CaseType.mute → caseKick.expires = some t →
          Effect.timeout caseKick.user t
            ∈ (Case.create { envDefault with dmForbidden := true }
                caseKick []).effects)) :=
  ⟨rfl, rfl, by decide,
    forbidden_dm_never_blocks_create envDefault caseKick [] rfl rfl
      (by decide)⟩

/-- C10: the DELETE of `Case.delete` and the UPDATE of `Case.edit` filter by
`case_id` only: for a member target, `delete` removes every stored row whose
`case_id` equals the case's id — in every guild — and `edit` rewrites every
such row, so when the same case id exists in two guilds, deleting or editing
the case in one guild also deletes or modifies the other guild's row. -/
theorem delete_edit_filter_by_case_id_only (env : Env) (c : Case)
    (store : List Row) (hm : env.inMembers = true) :
    (Case.delete env c store).store
      = store.filter (fun r => !(r.case_id == c.id))
    ∧ (∀ r ∈ store, r.case_id = c.id →
        r ∉ (Case.delete env c store).store)
    ∧ (∀ (i : Nat) (nc : Case) (r : Row), r ∈ store → r.case_id = i →
        { r with user_id := nc.user, reason := nc.reason,
                 expires := nc.expires, message := nc.message }
          ∈ Case.edit i nc store) := by
  refine ⟨by simp [Case.delete, hm], ?_, ?_⟩
  · intro r hr hid
    simp [Case.delete, hm, List.mem_filter, hid]
  · intro i nc r hr hid
    have hfun : editFun i nc r
        = { r with user_id := nc.user, reason := nc.reason,
                   expires := nc.expires, message := nc.message } := by
      simp [editFun, hid]
    rw [← hfun]
    exact List.mem_map_of_mem _ hr

/-- Witness for C10: guilds 1 and 2 both hold a row with case id 5; deleting
the guild-1 case removes the guild-2 row as well, and an edit touching case
id 5 rewrites the guild-2 row. -/
theorem delete_edit_filter_by_case_id_only_w :
    envDefault.inMembers = true
    ∧ ((Case.delete envDefault
          { type := CaseType.mute, id := 5, guild := 1, user := 50,
            moderator := 9, reason := none, expires := some 3,
            message := none, created := 0 }
          [rowMuteDue, rowWarnPerm]).store
        = [rowMuteDue, rowWarnPerm].filter (fun r => !(r.case_id == 5))
      ∧ (∀ r ∈ [rowMuteDue, rowWarnPerm], r.case_id = 5 →
          r ∉ (Case.delete envDefault
            { type := CaseType.mute, id := 5, guild := 1, user := 50,
              moderator := 9, reason := none, expires := some 3,
              message := none, created := 0 }
            [rowMuteDue, rowWarnPerm]).store)
      ∧ (∀ (i : Nat) (nc : Case) (r : Row),
          r ∈ [rowMuteDue, rowWarnPerm] → r.case_id = i →
          { r with user_id := nc.user, reason := nc.reason,
                   expires := nc.expires, message := nc.message }
            ∈ Case.edit i nc [rowMuteDue, rowWarnPerm])) :=
  ⟨rfl, delete_edit_filter_by_case_id_only envDefault
    { type := CaseType.mute, id := 5, guild := 1, user := 50, moderator := 9,
      reason := none, expires := some 3, message := none, created := 0 }
    [rowMuteDue, rowWarnPerm] rfl⟩

/-- Helper: `List.find?` commutes with mapping a function that preserves the
predicate. -/
theorem find?_map_of_pred_pres (f : Row → Row) (p : Row → Bool)
    (hp : ∀ r, p (f r) = p r) (l : List Row) :
    (l.map f).find? p = (l.find? p).map f := by
  induction l with
  | nil => rfl
  | cons a l ih =>
      cases h : p a with
      | true =>
          have hf : p (f a) = true := by rw [hp a, h]
          rw [List.map_cons, List.find?_cons_of_pos _ hf,
            List.find?_cons_of_pos _ h, Option.map_some']
      | false =>
          have hf : ¬p (f a) = true := by rw [hp a, h]; simp
          have hb : ¬p a = true := by rw [h]; simp
          rw [List.map_cons, List.find?_cons_of_neg _ hf,
            List.find?_cons_of_neg _ hb, ih]

/-- Helper: fetching by `(case_id, guild_id)` after an UPDATE keyed on the
fetched row's `case_id` returns the updated version of that row. -/
theorem fetch_edit_eq (store : List Row) (g i : Nat) (r0 : Row) (nc : Case)
    (hf : fetchByCaseAndGuild store g i = some r0)
    (hcid : r0.case_id = i) :
    fetchByCaseAndGuild (Case.edit i nc store) g i
      = some { r0 with user_id := nc.user, reason := nc.reason,
                       expires := nc.expires, message := nc.message } := by
  have hf2 : store.find? (fun r => r.case_id == i && r.guild_id == g)
      = some r0 := hf
  have hp : ∀ r : Row,
      (fun r : Row => r.case_id == i && r.guild_id == g) (editFun i nc r)
      = (fun r : Row => r.case_id == i && r.guild_id == g) r := by
    intro r
    simp only [editFun]
    split <;> rfl
  show (store.map (editFun i nc)).find?
      (fun r => r.case_id == i && r.guild_id == g)
    = some { r0 with user_id := nc.user, reason := nc.reason,
                     expires := nc.expires, message := nc.message }
  rw [find?_map_of_pred_pres _ _ hp, hf2, Option.map_some']
  simp [editFun, hcid]

/-- C7: for a persisted case, `edit` with a copy of the fetched case whose
reason alone was changed, followed by `from_id` on the same id in the same
guild, yields a case whose `expires` and target user equal the original's and
whose reason equals the new value. -/
theorem edit_reason_roundtrip (now now2 : Int) (store : List Row)
    (g i : Nat) (c0 : Case) (newR : Option String)
    (h0 : Case.from_id now store g i = some c0) :
    ∃ c1, Case.from_id now2
        (Case.edit c0.id { c0.copy with reason := newR } store) g i = some c1
      ∧ c1.expires = c0.expires ∧ c1.user = c0.user ∧ c1.reason = newR := by
  cases hf : fetchByCaseAndGuild store g i with
  | none => simp [Case.from_id, hf] at h0
  | some r0 =>
      cases ht : CaseType.ofValue? r0.type with
      | none => simp [Case.from_id, hf, Case.from_dict, ht] at h0
      | some ty =>
          simp only [Case.from_id, hf, Case.from_dict, ht] at h0
          have hc0 := Option.some.inj h0
          have hf2 : store.find? (fun r => r.case_id == i && r.guild_id == g)
              = some r0 := hf
          have hpred := List.find?_some hf2
          have hid : r0.case_id = i := by
            simp only [Bool.and_eq_true, beq_iff_eq] at hpred
            exact hpred.1
          have hcid : c0.id = i := by
            rw [← hc0]
            simpa [Case.init] using hid
          have hfetch := fetch_edit_eq store g i r0
            { c0.copy with reason := newR } hf hid
          rw [hcid]
          refine ⟨Case.init now2 ty r0.case_id r0.guild_id c0.user
            r0.moderator_id none newR c0.expires c0.message, ?_, ?_, ?_, ?_⟩
          · simp only [Case.copy] at hfetch
            simp only [Case.from_id, Case.copy, hfetch, Case.from_dict, ht]
          · rfl
          · rfl
          · rfl

/-- Witness for C7: the stored warn row (guild 1, id 5, expires 99, target
50) edited to reason "r2". -/
theorem edit_reason_roundtrip_w :
    Case.from_id 0 [rowWarnStored] 1 5 = some caseWarnStored
    ∧ ∃ c1, Case.from_id 0
        (Case.edit caseWarnStored.id
          { caseWarnStored.copy with reason := some "r2" } [rowWarnStored])
        1 5 = some c1
      ∧ c1.expires = caseWarnStored.expires ∧ c1.user = caseWarnStored.user
      ∧ c1.reason = some "r2" :=
  ⟨by decide,
    edit_reason_roundtrip 0 0 [rowWarnStored] 1 5 caseWarnStored (some "r2")
      (by decide)⟩

/-- Helper: one loop iteration on a due row whose target is still a member
and whose stored discriminant is valid removes exactly the rows sharing its
`case_id`. -/
theorem deleteRow_of_member (memberOf : Nat → Nat → Bool) (envOf : Row → Env)
    (now : Int) (r : Row) (s : List Row)
    (hm : memberOf r.guild_id r.user_id = true)
    (ht : (CaseType.ofValue? r.type).isSome = true) :
    deleteRow memberOf envOf now r s
      = s.filter (fun x => !(x.case_id == r.case_id)) := by
  unfold deleteRow Case.from_dict
  cases h : CaseType.ofValue? r.type with
  | none => rw [h] at ht; simp at ht
  | some ty => simp [Case.delete, Case.init, hm]

/-- Helper: the tick's deletion loop over due rows with member targets and
valid discriminants filters out exactly the rows sharing a `case_id` with
some due row. -/
theorem foldl_deleteRow_eq_filter (memberOf : Nat → Nat → Bool)
    (envOf : Row → Env) (now : Int) :
    ∀ (due s : List Row),
      (∀ r ∈ due, memberOf r.guild_id r.user_id = true) →
      (∀ r ∈ due, (CaseType.ofValue? r.type).isSome = true) →
      due.foldl (fun acc r => deleteRow memberOf envOf now r acc) s
        = s.filter
            (fun x => !(due.any (fun r => x.case_id == r.case_id))) := by
  intro due
  induction due with
  | nil => intro s _ _; simp
  | cons r due ih =>
      intro s h1 h2
      rw [List.foldl_cons,
        deleteRow_of_member memberOf envOf now r s (h1 r (by simp))
          (h2 r (by simp)),
        ih _ (fun x hx => h1 x (by simp [hx]))
          (fun x hx => h2 x (by simp [hx])),
        List.filter_filter]
      congr 1
      funext x
      simp [Bool.not_or, Bool.and_comm]

/-- C8 counterexample: a due mute in guild 1 and a permanent warn in guild 2
share case id 5; the tick's per-case DELETE filters by `case_id` only, so the
tick also removes the permanent (`expires = None`) row even though the scan
never selected it — refuting "leaves every permanent (expiresAt = None) case
untouched". -/
theorem tick_deletes_permanent_row :
    rowWarnPerm.expires = none
    ∧ rowWarnPerm ∉ findExpired 10 [rowMuteDue, rowWarnPerm]
    ∧ (case_removal_tick (fun _ _ => true) (fun _ => envDefault) 10
        [rowMuteDue, rowWarnPerm]).store = [] :=
  ⟨rfl, by decide, by decide⟩

/-- C8 amended: the due-case query selects exactly the rows, across all
guilds, whose `expires` is non-null and at most now, and never selects a
permanent (`expires = None`) row. Provided each due row's target is still a
guild member, each due discriminant is valid, and no stored row shares its
`case_id` with a due row unless it is itself due, one tick removes every due
row and leaves every permanent row in place. (Without the id-sharing proviso
a permanent row sharing its case id with a due row is deleted too, since each
per-case DELETE filters by `case_id` only.) -/
theorem expiry_scan_tick_frame (memberOf : Nat → Nat → Bool)
    (envOf : Row → Env) (now : Int) (store : List Row)
    (h1 : ∀ r ∈ findExpired now store, memberOf r.guild_id r.user_id = true)
    (h2 : ∀ r ∈ findExpired now store,
        (CaseType.ofValue? r.type).isSome = true)
    (h3 : ∀ r ∈ findExpired now store, ∀ x ∈ store,
        x.case_id = r.case_id → x ∈ findExpired now store) :
    (∀ r : Row, r ∈ findExpired now store ↔
        r ∈ store ∧ ∃ t, r.expires = some t ∧ t ≤ now)
    ∧ (∀ r ∈ store, r.expires = none →
        r ∈ (case_removal_tick memberOf envOf now store).store)
    ∧ (∀ r ∈ findExpired now store,
        r ∉ (case_removal_tick memberOf envOf now store).store) := by
  have hsel : ∀ r : Row, r ∈ findExpired now store ↔
      r ∈ store ∧ ∃ t, r.expires = some t ∧ t ≤ now := by
    intro r
    unfold findExpired
    rw [List.mem_filter]
    constructor
    · rintro ⟨hr, hp⟩
      refine ⟨hr, ?_⟩
      cases he : r.expires with
      | none => rw [he] at hp; simp at hp
      | some t =>
          rw [he] at hp
          simp only [decide_eq_true_eq] at hp
          exact ⟨t, rfl, hp⟩
    · rintro ⟨hr, t, he, hle⟩
      refine ⟨hr, ?_⟩
      rw [he]
      simpa using hle
  have htick : (case_removal_tick memberOf envOf now store).store
      = if (findExpired now store).isEmpty then store
        else store.filter (fun x =>
          !((findExpired now store).any (fun r => x.case_id == r.case_id))) := by
    unfold case_removal_tick
    cases h : (findExpired now store).isEmpty with
    | true => simp [h]
    | false =>
        simp only [h, Bool.false_eq_true, if_false]
        exact foldl_deleteRow_eq_filter memberOf envOf now _ _ h1 h2
  refine ⟨hsel, ?_, ?_⟩
  · intro r hr hnone
    rw [htick]
    cases hemp : (findExpired now store).isEmpty with
    | true => simpa [hemp] using hr
    | false =>
        simp only [hemp, Bool.false_eq_true, if_false]
        rw [List.mem_filter]
        refine ⟨hr, ?_⟩
        simp only [Bool.not_eq_true', List.any_eq_false]
        intro d hd
        intro hbeq
        have heq : r.case_id = d.case_id := by simpa using hbeq
        have hxd : r ∈ findExpired now store := h3 d hd r hr heq
        rcases (hsel r).mp hxd with ⟨_, t, hsome, _⟩
        rw [hnone] at hsome
        exact Option.noConfusion hsome
  · intro r hr
    have hne : (findExpired now store).isEmpty = false := by
      cases hq : findExpired now store with
      | nil => rw [hq] at hr; simp at hr
      | cons a l => rfl
    rw [htick]
    simp only [hne, Bool.false_eq_true, if_false]
    rw [List.mem_filter]
    rintro ⟨_, hpred⟩
    simp only [Bool.not_eq_true', List.any_eq_false] at hpred
    exact absurd (by simp : (r.case_id == r.case_id) = true)
      (by simpa using hpred r hr)

/-- Witness for the amended C8: a due mute (guild 1, id 5) and a permanent
warn (guild 2, id 7) with distinct ids; the tick removes the mute row and
keeps the warn row. -/
theorem expiry_scan_tick_frame_w :
    (∀ r ∈ findExpired 10 [rowMuteDue, rowWarnPerm7],
        (fun _ _ => true : Nat → Nat → Bool) r.guild_id r.user_id = true)
    ∧ (∀ r ∈ findExpired 10 [rowMuteDue, rowWarnPerm7],
        (CaseType.ofValue? r.type).isSome = true)
    ∧ (∀ r ∈ findExpired 10 [rowMuteDue, rowWarnPerm7],
        ∀ x ∈ [rowMuteDue, rowWarnPerm7], x.case_id = r.case_id →
          x ∈ findExpired 10 [rowMuteDue, rowWarnPerm7])
    ∧ ((∀ r : Row, r ∈ findExpired 10 [rowMuteDue, rowWarnPerm7] ↔
          r ∈ [rowMuteDue, rowWarnPerm7]
            ∧ ∃ t, r.expires = some t ∧ t ≤ (10 : Int))
      ∧ (∀ r ∈ [rowMuteDue, rowWarnPerm7], r.expires = none →
          r ∈ (case_removal_tick (fun _ _ => true) (fun _ => envDefault) 10
            [rowMuteDue, rowWarnPerm7]).store)
      ∧ (∀ r ∈ findExpired 10 [rowMuteDue, rowWarnPerm7],
          r ∉ (case_removal_tick (fun _ _ => true) (fun _ => envDefault) 10
            [rowMuteDue, rowWarnPerm7]).store)) :=
  ⟨by decide, by decide, by decide,
    expiry_scan_tick_frame (fun _ _ => true) (fun _ => envDefault) 10
      [rowMuteDue, rowWarnPerm7] (by decide) (by decide) (by decide)⟩

end ClosedBeta
